import Mathlib

/-!
Shallow embedding of the lung cancer survival analysis pipeline from the
notebook 01_analysis.py.  Tables are lists of records; SQL views become
functions from tables to lists of rows.  Dates are encoded as proleptic
Gregorian day numbers, so that the Spark datediff function becomes integer
subtraction.
-/

namespace LungCancer

/-- A row of the patients table: the columns the pipeline reads. -/
structure PatientRecord where
  id : Nat
  BIRTHDATE : Int
  DEATHDATE : Option Int
  GENDER : String
deriving DecidableEq

/-- A row of the conditions table: the columns the pipeline reads. -/
structure ConditionRecord where
  PATIENT : Nat
  CODE : Nat
  DESCRIPTION : String
  START : Int
deriving DecidableEq

/-- A row of the encounters table: the columns the pipeline reads. -/
structure EncounterRecord where
  PATIENT : Nat
  STOP : Int
deriving DecidableEq

/-- Day number of a proleptic Gregorian date, counted from 0000-03-01,
mirroring the day arithmetic behind the Spark to_date and datediff
functions: differences of these numbers are exact day differences. -/
def civil (y m d : Nat) : Int :=
  let yy : Nat := if m ≤ 2 then y - 1 else y
  let era : Nat := yy / 400
  let yoe : Nat := yy % 400
  let mp : Nat := (m + 9) % 12
  let doy : Nat := (153 * mp + 2) / 5 + (d - 1)
  let doe : Nat := yoe * 365 + yoe / 4 - yoe / 100 + doy
  ((era * 146097 + doe : Nat) : Int)

/-- Spark datediff(endDate, startDate): number of days from startDate to
endDate. -/
def datediff (endDate startDate : Int) : Int := endDate - startDate

/-- Spark round to zero decimal places: HALF_UP, ties rounded away from
zero. -/
def sparkRound (q : ℚ) : Int := if 0 ≤ q then ⌊q + 1 / 2⌋ else ⌈q - 1 / 2⌉

/-- The same HALF_UP rounding of the exact quotient a / b, written with
natural-number division so that it evaluates by kernel reduction; proved
equal to sparkRound of the rational quotient below. -/
def roundHalfUp (a : Int) (b : Nat) : Int :=
  if 0 ≤ a then (((2 * a.toNat + b) / (2 * b) : Nat) : Int)
  else -(((2 * (-a).toNat + b) / (2 * b) : Nat) : Int)

/-- A row of the lung_cancer_cohort view. -/
structure CohortEntry where
  PATIENT : Nat
  START_DATE : Int
  type : String
deriving DecidableEq

/-- The cohort row built from one condition row: PATIENT, START as
START_DATE, and the CASE expression labelling code 254632001 as SCLC and
everything else as NSCLC. -/
def cohortEntryOf (c : ConditionRecord) : CohortEntry :=
  { PATIENT := c.PATIENT
    START_DATE := c.START
    type := if c.CODE == 254632001 then "SCLC" else "NSCLC" }

/-- The lung_cancer_cohort view: conditions restricted to codes 254632001
and 254637007, each row relabelled by the CASE expression. -/
def lung_cancer_cohort (conditions : List ConditionRecord) : List CohortEntry :=
  (conditions.filter fun c => c.CODE == 254632001 || c.CODE == 254637007).map cohortEntryOf

/-- SQL max over a column: none on the empty collection. -/
def maxDate : List Int → Option Int
  | [] => none
  | x :: xs =>
    match maxDate xs with
    | none => some x
    | some m => some (max x m)

/-- The last_date_on_record CTE, looked up per patient: max STOP over the
encounters of that patient, none when the patient has no encounters. -/
def last_date_on_record (encounters : List EncounterRecord) (pid : Nat) : Option Int :=
  maxDate ((encounters.filter fun e => e.PATIENT == pid).map fun e => e.STOP)

/-- A row of the patients_and_dates CTE. -/
structure PatientsAndDates where
  Id : Nat
  BIRTHDATE : Int
  death_date : Option Int
  GENDER : String
  last_date_on_record : Int
deriving DecidableEq

/-- The row of the patients_and_dates CTE built from one patient row and
its last date on record: Id, BIRTHDATE, DEATHDATE as death_date, GENDER
and the joined last_date_on_record. -/
def padOf (p : PatientRecord) (ld : Int) : PatientsAndDates :=
  { Id := p.id
    BIRTHDATE := p.BIRTHDATE
    death_date := p.DEATHDATE
    GENDER := p.GENDER
    last_date_on_record := ld }

/-- The patients_and_dates CTE: patients inner-joined with the per-patient
last date on record; patients with no encounters produce no row. -/
def patients_and_dates (patients : List PatientRecord)
    (encounters : List EncounterRecord) : List PatientsAndDates :=
  patients.filterMap fun p => (last_date_on_record encounters p.id).map (padOf p)

/-- A row of the lung_cancer_patients_dataset view: SELECT * over the join
of the cohort and patients_and_dates, plus the derived age_at_diagnosis. -/
structure PatientDatasetRow where
  PATIENT : Nat
  START_DATE : Int
  type : String
  Id : Nat
  BIRTHDATE : Int
  death_date : Option Int
  GENDER : String
  last_date_on_record : Int
  age_at_diagnosis : Int
deriving DecidableEq

/-- The derived age column: round(datediff(START_DATE, BIRTHDATE) / 356),
with the 356 divisor of the source. -/
def age_at_diagnosis (START_DATE BIRTHDATE : Int) : Int :=
  roundHalfUp (datediff START_DATE BIRTHDATE) 356

/-- One joined output row from a cohort entry and a matching
patients_and_dates row. -/
def mkDatasetRow (lcc : CohortEntry) (pad : PatientsAndDates) : PatientDatasetRow :=
  { PATIENT := lcc.PATIENT
    START_DATE := lcc.START_DATE
    type := lcc.type
    Id := pad.Id
    BIRTHDATE := pad.BIRTHDATE
    death_date := pad.death_date
    GENDER := pad.GENDER
    last_date_on_record := pad.last_date_on_record
    age_at_diagnosis := age_at_diagnosis lcc.START_DATE pad.BIRTHDATE }

/-- The joined rows produced for one cohort entry: every
patients_and_dates row whose Id equals the entry PATIENT. -/
def rowsForEntry (patients : List PatientRecord) (encounters : List EncounterRecord)
    (lcc : CohortEntry) : List PatientDatasetRow :=
  ((patients_and_dates patients encounters).filter fun pad => pad.Id == lcc.PATIENT).map
    (mkDatasetRow lcc)

/-- The lung_cancer_patients_dataset view: the cohort inner-joined with
patients_and_dates on patient id. -/
def lung_cancer_patients_dataset (patients : List PatientRecord)
    (conditions : List ConditionRecord) (encounters : List EncounterRecord) :
    List PatientDatasetRow :=
  (lung_cancer_cohort conditions).flatMap (rowsForEntry patients encounters)

/-- A row of the lung_cancer_survival_data view. -/
structure SurvivalRecord where
  START_DATE : Int
  death_date : Option Int
  GENDER : String
  type : String
  age_at_diagnosis : Int
  status : Nat
  time : Int
deriving DecidableEq

/-- The survival record derived from one dataset row: status is 0 when
death_date is null and 1 otherwise; time is datediff(last_date_on_record,
START_DATE) when death_date is null and datediff(death_date, START_DATE)
otherwise; the remaining columns are selected unchanged. -/
def toSurvivalRecord (row : PatientDatasetRow) : SurvivalRecord :=
  { START_DATE := row.START_DATE
    death_date := row.death_date
    GENDER := row.GENDER
    type := row.type
    age_at_diagnosis := row.age_at_diagnosis
    status := match row.death_date with
      | none => 0
      | some _ => 1
    time := match row.death_date with
      | none => datediff row.last_date_on_record row.START_DATE
      | some dd => datediff dd row.START_DATE }

/-- The lung_cancer_survival_data view: every dataset row mapped to its
survival record. -/
def lung_cancer_survival_data (patients : List PatientRecord)
    (conditions : List ConditionRecord) (encounters : List EncounterRecord) :
    List SurvivalRecord :=
  (lung_cancer_patients_dataset patients conditions encounters).map toSurvivalRecord

/-- Modelled from the spec: the notebook consumes KaplanMeierFitter from the
external lifelines library, whose code is not part of this repository; the
estimator input is the list of (duration, event) pairs zipped from the time
and status columns. The number at risk just before time t: records whose
duration is at least t. -/
def atRiskCount (data : List (ℚ × Bool)) (t : ℚ) : Nat :=
  data.countP fun x => decide (t ≤ x.1)

/-- Modelled from the spec: the number of observed events (deaths) at
exactly time t. -/
def deathCount (data : List (ℚ × Bool)) (t : ℚ) : Nat :=
  data.countP fun x => decide (x.1 = t) && x.2

/-- Modelled from the spec: the distinct observed event times. -/
def eventTimes (data : List (ℚ × Bool)) : Finset ℚ :=
  ((data.filter fun x => x.2).map Prod.fst).toFinset

/-- Modelled from the spec: the multiplicative Kaplan-Meier factor
1 - d_i / n_i at one event time. -/
def kmFactor (data : List (ℚ × Bool)) (t : ℚ) : ℚ :=
  1 - (deathCount data t : ℚ) / (atRiskCount data t : ℚ)

/-- Modelled from the spec: the Kaplan-Meier survival function S(t), the
product of the factors 1 - d_i / n_i over the distinct observed event times
up to and including t. -/
def survivalFunction (data : List (ℚ × Bool)) (t : ℚ) : ℚ :=
  ∏ u ∈ (eventTimes data).filter (fun u => u ≤ t), kmFactor data u

/-- Modelled from the spec: the value of the Kaplan-Meier survival function
just before t, the product over the event times strictly below t. -/
def survivalBefore (data : List (ℚ × Bool)) (t : ℚ) : ℚ :=
  ∏ u ∈ (eventTimes data).filter (fun u => u < t), kmFactor data u

/-- Example patients table: one patient with a recorded death. -/
def exPatientsObserved : List PatientRecord :=
  [{ id := 1, BIRTHDATE := civil 1950 1 1, DEATHDATE := some (civil 2021 4 1), GENDER := "M" }]

/-- An SCLC condition record: code 254632001, onset 2021-01-01. -/
def exCondSCLC : ConditionRecord :=
  { PATIENT := 1, CODE := 254632001, DESCRIPTION := "Small cell carcinoma of lung",
    START := civil 2021 1 1 }

/-- Example conditions table: an SCLC diagnosis on 2021-01-01. -/
def exConditionsObserved : List ConditionRecord := [exCondSCLC]

/-- Example encounters table: a last encounter on 2021-12-01, after the
death date. -/
def exEncountersObserved : List EncounterRecord :=
  [{ PATIENT := 1, STOP := civil 2021 12 1 }]

/-- Example patients table: one patient with no recorded death. -/
def exPatientsCensored : List PatientRecord :=
  [{ id := 2, BIRTHDATE := civil 1950 1 1, DEATHDATE := none, GENDER := "F" }]

/-- Example conditions table: an NSCLC diagnosis on 2021-01-01. -/
def exConditionsCensored : List ConditionRecord :=
  [{ PATIENT := 2, CODE := 254637007, DESCRIPTION := "Non-small cell lung cancer",
     START := civil 2021 1 1 }]

/-- Example encounters table: a last encounter on 2021-07-01. -/
def exEncountersCensored : List EncounterRecord :=
  [{ PATIENT := 2, STOP := civil 2021 7 1 }]

/-- Example patients table: a censored patient whose last encounter
precedes the diagnosis. -/
def exPatientsNeg : List PatientRecord :=
  [{ id := 3, BIRTHDATE := civil 1950 1 1, DEATHDATE := none, GENDER := "M" }]

/-- Example conditions table: a diagnosis on 2021-07-01, after the last
encounter of the patient. -/
def exConditionsNeg : List ConditionRecord :=
  [{ PATIENT := 3, CODE := 254637007, DESCRIPTION := "Non-small cell lung cancer",
     START := civil 2021 7 1 }]

/-- Example encounters table: the only encounter stops on 2021-01-01,
before the diagnosis date. -/
def exEncountersNeg : List EncounterRecord :=
  [{ PATIENT := 3, STOP := civil 2021 1 1 }]

/-- A concrete dataset row of a censored patient whose last encounter
precedes the diagnosis date. -/
def exRowNeg : PatientDatasetRow :=
  { PATIENT := 3
    START_DATE := civil 2021 7 1
    type := "NSCLC"
    Id := 3
    BIRTHDATE := civil 1950 1 1
    death_date := none
    GENDER := "M"
    last_date_on_record := civil 2021 1 1
    age_at_diagnosis := age_at_diagnosis (civil 2021 7 1) (civil 1950 1 1) }

/-- A concrete Kaplan-Meier input: one event at time 2, one censored
observation at time 3. -/
def exKMData : List (ℚ × Bool) := [(2, true), (3, false)]

/-- A concrete dataset row of the censored example tables, used as a
witness input. -/
def exRowCensored : PatientDatasetRow :=
  { PATIENT := 2
    START_DATE := civil 2021 1 1
    type := "NSCLC"
    Id := 2
    BIRTHDATE := civil 1950 1 1
    death_date := none
    GENDER := "F"
    last_date_on_record := civil 2021 7 1
    age_at_diagnosis := age_at_diagnosis (civil 2021 1 1) (civil 1950 1 1) }

/-- A concrete dataset row of the observed-death example tables, used as a
witness input. -/
def exRowObserved : PatientDatasetRow :=
  { PATIENT := 1
    START_DATE := civil 2021 1 1
    type := "SCLC"
    Id := 1
    BIRTHDATE := civil 1950 1 1
    death_date := some (civil 2021 4 1)
    GENDER := "M"
    last_date_on_record := civil 2021 12 1
    age_at_diagnosis := age_at_diagnosis (civil 2021 1 1) (civil 1950 1 1) }

lemma floor_natDiv_add_half (m b : Nat) (hb : 0 < b) :
    ⌊(m : ℚ) / (b : ℚ) + 1 / 2⌋ = (((2 * m + b) / (2 * b) : Nat) : Int) := by
  have hb' : ((b : ℚ)) ≠ 0 := by
    exact_mod_cast hb.ne'
  have hq : (m : ℚ) / (b : ℚ) + 1 / 2 = ((2 * m + b : ℕ) : ℚ) / ((2 * b : ℕ) : ℚ) := by
    push_cast
    field_simp
    ring
  rw [hq, Rat.floor_natCast_div_natCast]
  exact (Int.ofNat_tdiv _ _).symm

lemma roundHalfUp_eq_sparkRound (a : Int) (b : Nat) (hb : 0 < b) :
    roundHalfUp a b = sparkRound ((a : ℚ) / (b : ℚ)) := by
  have hbq : (0 : ℚ) < (b : ℚ) := by exact_mod_cast hb
  by_cases ha : 0 ≤ a
  · have haq : (0 : ℚ) ≤ (a : ℚ) / (b : ℚ) := div_nonneg (by exact_mod_cast ha) hbq.le
    rw [roundHalfUp, sparkRound, if_pos ha, if_pos haq]
    have hcast : ((a.toNat : ℕ) : ℚ) = (a : ℚ) := by
      exact_mod_cast Int.toNat_of_nonneg ha
    rw [← hcast, floor_natDiv_add_half a.toNat b hb]
  · have ha' : a < 0 := lt_of_not_ge ha
    have haq : ¬(0 : ℚ) ≤ (a : ℚ) / (b : ℚ) := by
      refine not_le.mpr (div_neg_of_neg_of_pos ?_ hbq)
      exact_mod_cast ha'
    rw [roundHalfUp, sparkRound, if_neg ha, if_neg haq]
    have hneg : ((a : ℚ) / (b : ℚ) - 1 / 2) = -((((-a) : ℤ) : ℚ) / (b : ℚ) + 1 / 2) := by
      push_cast
      ring
    rw [hneg, Int.ceil_neg]
    have hcast : (((-a).toNat : ℕ) : ℚ) = (((-a) : ℤ) : ℚ) := by
      exact_mod_cast Int.toNat_of_nonneg (by omega : (0 : ℤ) ≤ -a)
    rw [← hcast, floor_natDiv_add_half (-a).toNat b hb]

lemma mem_patients_and_dates {ps : List PatientRecord} {es : List EncounterRecord}
    {pad : PatientsAndDates} :
    pad ∈ patients_and_dates ps es ↔
      ∃ p ∈ ps, ∃ ld, last_date_on_record es p.id = some ld ∧ pad = padOf p ld := by
  simp only [patients_and_dates, List.mem_filterMap, Option.map_eq_some']
  constructor
  · rintro ⟨p, hp, ld, hld, rfl⟩
    exact ⟨p, hp, ld, hld, rfl⟩
  · rintro ⟨p, hp, ld, hld, rfl⟩
    exact ⟨p, hp, ld, hld, rfl⟩

lemma patients_and_dates_cons_none {p : PatientRecord} {ps : List PatientRecord}
    {es : List EncounterRecord} (hld : last_date_on_record es p.id = none) :
    patients_and_dates (p :: ps) es = patients_and_dates ps es := by
  simp only [patients_and_dates, List.filterMap_cons, hld, Option.map_none']

lemma patients_and_dates_cons_some {p : PatientRecord} {ps : List PatientRecord}
    {es : List EncounterRecord} {ld : Int}
    (hld : last_date_on_record es p.id = some ld) :
    patients_and_dates (p :: ps) es = padOf p ld :: patients_and_dates ps es := by
  simp only [patients_and_dates, List.filterMap_cons, hld, Option.map_some']

lemma mem_lung_cancer_patients_dataset {ps : List PatientRecord}
    {cs : List ConditionRecord} {es : List EncounterRecord} {row : PatientDatasetRow} :
    row ∈ lung_cancer_patients_dataset ps cs es ↔
      ∃ lcc ∈ lung_cancer_cohort cs, ∃ pad ∈ patients_and_dates ps es,
        pad.Id = lcc.PATIENT ∧ row = mkDatasetRow lcc pad := by
  simp only [lung_cancer_patients_dataset, rowsForEntry, List.mem_flatMap, List.mem_map,
    List.mem_filter, beq_iff_eq]
  constructor
  · rintro ⟨lcc, hlcc, pad, ⟨hpad, hid⟩, rfl⟩
    exact ⟨lcc, hlcc, pad, hpad, hid, rfl⟩
  · rintro ⟨lcc, hlcc, pad, hpad, hid, rfl⟩
    exact ⟨lcc, hlcc, pad, ⟨hpad, hid⟩, rfl⟩

/-- Claim C1: for every dataset row mapped by the survival record deriver,
status is 1 exactly when death_date is non-null, and time is the day
difference from START_DATE to death_date when status is 1 and to
last_date_on_record otherwise; on the concrete scenarios, diagnosis
2021-01-01 with death 2021-04-01 and last encounter 2021-12-01 gives
status 1 and time 90, and diagnosis 2021-01-01 with no death and last
encounter 2021-07-01 gives status 0 and time 181. -/
theorem survival_status_time_rule :
    (∀ row : PatientDatasetRow,
      ((toSurvivalRecord row).status = 1 ↔ row.death_date ≠ none) ∧
      (toSurvivalRecord row).time =
        (match row.death_date with
          | some dd => datediff dd row.START_DATE
          | none => datediff row.last_date_on_record row.START_DATE)) ∧
    (lung_cancer_survival_data exPatientsObserved exConditionsObserved
        exEncountersObserved).map (fun r => (r.status, r.time)) = [(1, 90)] ∧
    (lung_cancer_survival_data exPatientsCensored exConditionsCensored
        exEncountersCensored).map (fun r => (r.status, r.time)) = [(0, 181)] := by
  refine ⟨fun row => ⟨?_, ?_⟩, by decide, by decide⟩
  · cases h : row.death_date <;> simp [toSurvivalRecord, h]
  · cases h : row.death_date <;> simp [toSurvivalRecord, h]

/-- Claim C9: the survival record deriver only adds the status and time
fields; START_DATE, death_date, GENDER, type and age_at_diagnosis are
copied through unchanged from the dataset row. -/
theorem survival_record_frame :
    ∀ row : PatientDatasetRow,
      (toSurvivalRecord row).START_DATE = row.START_DATE ∧
      (toSurvivalRecord row).death_date = row.death_date ∧
      (toSurvivalRecord row).GENDER = row.GENDER ∧
      (toSurvivalRecord row).type = row.type ∧
      (toSurvivalRecord row).age_at_diagnosis = row.age_at_diagnosis :=
  fun _ => ⟨rfl, rfl, rfl, rfl, rfl⟩

/-- Claim C7: the full pipeline from the raw tables to the survival records
is a pure function, so two runs on identical input tables produce identical
survival record lists. -/
theorem pipeline_deterministic :
    ∀ (ps₁ : List PatientRecord) (cs₁ : List ConditionRecord) (es₁ : List EncounterRecord)
      (ps₂ : List PatientRecord) (cs₂ : List ConditionRecord) (es₂ : List EncounterRecord),
      ps₁ = ps₂ → cs₁ = cs₂ → es₁ = es₂ →
      lung_cancer_survival_data ps₁ cs₁ es₁ = lung_cancer_survival_data ps₂ cs₂ es₂ := by
  intro ps₁ cs₁ es₁ ps₂ cs₂ es₂ hp hc he
  rw [hp, hc, he]

/-- Witness for claim C7 at the concrete example tables. -/
theorem pipeline_deterministic_witness :
    lung_cancer_survival_data exPatientsObserved exConditionsObserved exEncountersObserved =
      lung_cancer_survival_data exPatientsObserved exConditionsObserved exEncountersObserved :=
  pipeline_deterministic _ _ _ _ _ _ rfl rfl rfl

/-- Claim C3: every dataset row has age_at_diagnosis equal to the HALF_UP
rounding of the exact day difference from BIRTHDATE to START_DATE divided
by 356, and on birth 1950-01-01 with diagnosis 2020-01-01 the age is 72. -/
theorem age_at_diagnosis_rule :
    ∀ (ps : List PatientRecord) (cs : List ConditionRecord) (es : List EncounterRecord)
      (row : PatientDatasetRow), row ∈ lung_cancer_patients_dataset ps cs es →
      row.age_at_diagnosis = sparkRound ((datediff row.START_DATE row.BIRTHDATE : ℚ) / 356) ∧
      age_at_diagnosis (civil 2020 1 1) (civil 1950 1 1) = 72 := by
  intro ps cs es row hrow
  refine ⟨?_, by decide⟩
  obtain ⟨lcc, _, pad, _, _, rfl⟩ := mem_lung_cancer_patients_dataset.mp hrow
  show age_at_diagnosis lcc.START_DATE pad.BIRTHDATE =
    sparkRound ((datediff lcc.START_DATE pad.BIRTHDATE : ℚ) / 356)
  rw [age_at_diagnosis, roundHalfUp_eq_sparkRound _ 356 (by decide)]
  norm_num

/-- Witness for claim C3 at a concrete row of the observed-death example
tables. -/
theorem age_at_diagnosis_rule_witness :
    exRowObserved ∈ lung_cancer_patients_dataset exPatientsObserved exConditionsObserved
        exEncountersObserved ∧
    exRowObserved.age_at_diagnosis =
      sparkRound ((datediff exRowObserved.START_DATE exRowObserved.BIRTHDATE : ℚ) / 356) :=
  ⟨by decide, (age_at_diagnosis_rule exPatientsObserved exConditionsObserved
    exEncountersObserved exRowObserved (by decide)).1⟩

/-- Claim C5: a row whose survival time comes out negative is neither
clamped nor rejected: the deriver is total, so the survival view keeps one
record per dataset row, and when the end date used precedes START_DATE the
raw negative day difference is emitted as time. -/
theorem negative_time_passthrough :
    ∀ (ps : List PatientRecord) (cs : List ConditionRecord) (es : List EncounterRecord)
      (row : PatientDatasetRow),
      (lung_cancer_survival_data ps cs es).length =
        (lung_cancer_patients_dataset ps cs es).length ∧
      (row.death_date = none → row.last_date_on_record < row.START_DATE →
        (toSurvivalRecord row).time = datediff row.last_date_on_record row.START_DATE ∧
        (toSurvivalRecord row).time < 0) ∧
      (∀ dd, row.death_date = some dd → dd < row.START_DATE →
        (toSurvivalRecord row).time = datediff dd row.START_DATE ∧
        (toSurvivalRecord row).time < 0) := by
  intro ps cs es row
  refine ⟨List.length_map _ _, fun h hlt => ⟨?_, ?_⟩, fun dd h hlt => ⟨?_, ?_⟩⟩
  · simp [toSurvivalRecord, h]
  · simp only [toSurvivalRecord, h, datediff]
    omega
  · simp [toSurvivalRecord, h]
  · simp only [toSurvivalRecord, h, datediff]
    omega

/-- Witness for claim C5 at a concrete censored row whose last encounter
precedes the diagnosis date. -/
theorem negative_time_passthrough_witness :
    exRowNeg.death_date = none ∧ exRowNeg.last_date_on_record < exRowNeg.START_DATE ∧
    (toSurvivalRecord exRowNeg).time < 0 :=
  ⟨rfl, by decide,
    ((negative_time_passthrough exPatientsNeg exConditionsNeg exEncountersNeg
      exRowNeg).2.1 rfl (by decide)).2⟩

/-- Claim C2: a condition row yields a cohort entry exactly when its code
is 254632001 or 254637007; code 254632001 is labelled SCLC and code
254637007 is labelled NSCLC; every cohort entry arises from such a row and
rows with any other code are silently excluded, so the cohort is exactly
as long as the list of matching condition rows. -/
theorem cohort_membership_rule (cs : List ConditionRecord) :
    (∀ c ∈ cs, (c.CODE = 254632001 ∨ c.CODE = 254637007) →
      cohortEntryOf c ∈ lung_cancer_cohort cs ∧
      (c.CODE = 254632001 → (cohortEntryOf c).type = "SCLC") ∧
      (c.CODE = 254637007 → (cohortEntryOf c).type = "NSCLC")) ∧
    (∀ entry ∈ lung_cancer_cohort cs, ∃ c ∈ cs,
      entry = cohortEntryOf c ∧
      ((c.CODE = 254632001 ∧ entry.type = "SCLC") ∨
       (c.CODE = 254637007 ∧ entry.type = "NSCLC"))) ∧
    (lung_cancer_cohort cs).length =
      (cs.filter fun c => c.CODE == 254632001 || c.CODE == 254637007).length := by
  refine ⟨?_, ?_, List.length_map _ _⟩
  · intro c hc hcode
    refine ⟨?_, ?_, ?_⟩
    · refine List.mem_map_of_mem _ (List.mem_filter.mpr ⟨hc, ?_⟩)
      rcases hcode with h | h <;> simp [h]
    · intro h
      simp [cohortEntryOf, h]
    · intro h
      have : c.CODE ≠ 254632001 := by omega
      simp [cohortEntryOf, h, this]
  · intro entry hentry
    obtain ⟨c, hcf, rfl⟩ := List.mem_map.mp hentry
    have hc := List.mem_filter.mp hcf
    have hcode : c.CODE = 254632001 ∨ c.CODE = 254637007 := by
      have := hc.2
      simp only [Bool.or_eq_true, beq_iff_eq] at this
      exact this
    refine ⟨c, hc.1, rfl, ?_⟩
    rcases hcode with h | h
    · exact Or.inl ⟨h, by simp [cohortEntryOf, h]⟩
    · have hne : c.CODE ≠ 254632001 := by omega
      exact Or.inr ⟨h, by simp [cohortEntryOf, h, hne]⟩

/-- Witness for claim C2 at a concrete SCLC condition row. -/
theorem cohort_membership_rule_witness :
    cohortEntryOf exCondSCLC ∈ lung_cancer_cohort exConditionsObserved ∧
    (cohortEntryOf exCondSCLC).type = "SCLC" :=
  ⟨((cohort_membership_rule exConditionsObserved).1 exCondSCLC (by decide)
      (Or.inl (by decide))).1,
   ((cohort_membership_rule exConditionsObserved).1 exCondSCLC (by decide)
      (Or.inl (by decide))).2.1 (by decide)⟩

/-- Counterexample to claim C4 as stated: on a censored patient whose last
encounter on 2021-01-01 precedes the diagnosis on 2021-07-01, the pipeline
emits time -181, so the time field is not always non-negative. -/
theorem time_nonneg_counterexample :
    (lung_cancer_survival_data exPatientsNeg exConditionsNeg exEncountersNeg).map
        (fun r => r.time) = [-181] ∧
    ¬(∀ r ∈ lung_cancer_survival_data exPatientsNeg exConditionsNeg exEncountersNeg,
        0 ≤ r.time) := by
  exact ⟨by decide, by decide⟩

/-- Claim C4 amended: the time field is an integer day count, non-negative
exactly when the end date used (death_date when present, otherwise
last_date_on_record) is on or after START_DATE; when that date precedes
START_DATE the emitted time is negative. -/
theorem time_sign_rule :
    ∀ row : PatientDatasetRow,
      (0 ≤ (toSurvivalRecord row).time ↔
        row.START_DATE ≤ (match row.death_date with
          | some dd => dd
          | none => row.last_date_on_record)) := by
  intro row
  cases h : row.death_date <;> simp [toSurvivalRecord, h, datediff]

lemma maxDate_mem : ∀ {l : List Int} {m : Int}, maxDate l = some m → m ∈ l := by
  intro l
  induction l with
  | nil => intro m h; simp [maxDate] at h
  | cons x xs ih =>
    intro m h
    cases hxs : maxDate xs with
    | none =>
      simp only [maxDate, hxs, Option.some_inj] at h
      exact h ▸ List.mem_cons_self x xs
    | some m0 =>
      simp only [maxDate, hxs, Option.some_inj] at h
      rcases max_choice x m0 with hc | hc
      · exact (hc.symm.trans h) ▸ List.mem_cons_self x xs
      · exact List.mem_cons_of_mem x (ih (hxs.trans (congrArg some (hc.symm.trans h))))

lemma maxDate_eq_none_iff {l : List Int} : maxDate l = none ↔ l = [] := by
  cases l with
  | nil => simp [maxDate]
  | cons x xs =>
    simp only [maxDate]
    cases maxDate xs <;> simp

lemma last_date_on_record_mem {es : List EncounterRecord} {pid : Nat} {ld : Int}
    (h : last_date_on_record es pid = some ld) :
    ∃ e ∈ es, e.PATIENT = pid ∧ e.STOP = ld := by
  have hm := maxDate_mem h
  obtain ⟨e, hef, hstop⟩ := List.mem_map.mp hm
  have he := List.mem_filter.mp hef
  exact ⟨e, he.1, by simpa using he.2, hstop⟩

lemma last_date_on_record_eq_none_iff {es : List EncounterRecord} {pid : Nat} :
    last_date_on_record es pid = none ↔ ∀ e ∈ es, e.PATIENT ≠ pid := by
  rw [last_date_on_record, maxDate_eq_none_iff, List.map_eq_nil_iff,
    List.filter_eq_nil_iff]
  simp

/-- Claim C10: every dataset row survives the inner join, so the
last_date_on_record it carries is the stop date of an actual encounter of
that patient; in particular, for a censored record the time emitted is the
well-defined day difference from START_DATE to that encounter date. -/
theorem censored_time_from_encounter :
    ∀ (ps : List PatientRecord) (cs : List ConditionRecord) (es : List EncounterRecord)
      (row : PatientDatasetRow), row ∈ lung_cancer_patients_dataset ps cs es →
      (∃ e ∈ es, e.PATIENT = row.PATIENT ∧ e.STOP = row.last_date_on_record) ∧
      ((toSurvivalRecord row).status = 0 →
        (toSurvivalRecord row).time = datediff row.last_date_on_record row.START_DATE) := by
  intro ps cs es row hrow
  obtain ⟨lcc, _, pad, hpad, hid, rfl⟩ := mem_lung_cancer_patients_dataset.mp hrow
  constructor
  · obtain ⟨p, _, ld, hld, rfl⟩ := mem_patients_and_dates.mp hpad
    obtain ⟨e, he, hep, hstop⟩ := last_date_on_record_mem hld
    exact ⟨e, he, by simp_all [mkDatasetRow, padOf], by simp [mkDatasetRow, padOf, hstop]⟩
  · intro hstatus
    cases hd : pad.death_date with
    | none => simp [toSurvivalRecord, mkDatasetRow, hd]
    | some dd => simp [toSurvivalRecord, mkDatasetRow, hd] at hstatus

lemma pad_filter_nil {es : List EncounterRecord} {pid : Nat} :
    ∀ {ps : List PatientRecord}, (∀ p ∈ ps, p.id ≠ pid) →
    (patients_and_dates ps es).filter (fun pad => pad.Id == pid) = [] := by
  intro ps
  induction ps with
  | nil => intro _; rfl
  | cons p ps ih =>
    intro h
    have hp : p.id ≠ pid := h p (List.mem_cons_self p ps)
    have htail := ih fun q hq => h q (List.mem_cons_of_mem p hq)
    cases hld : last_date_on_record es p.id with
    | none =>
      rw [patients_and_dates_cons_none hld]
      exact htail
    | some ld =>
      rw [patients_and_dates_cons_some hld, List.filter_cons]
      have hfalse : ((padOf p ld).Id == pid) = false := by
        simp [padOf, hp]
      rw [hfalse]
      simpa using htail

lemma pad_filter_length {es : List EncounterRecord} {pid : Nat} :
    ∀ {ps : List PatientRecord}, (ps.map fun p => p.id).Nodup →
    ((patients_and_dates ps es).filter fun pad => pad.Id == pid).length =
      if (∃ p ∈ ps, p.id = pid) ∧ (∃ e ∈ es, e.PATIENT = pid) then 1 else 0 := by
  intro ps
  induction ps with
  | nil => intro _; simp [patients_and_dates]
  | cons p ps ih =>
    intro hnd
    have hnd' : (ps.map fun p => p.id).Nodup := (List.nodup_cons.mp (by simpa using hnd)).2
    have hnotin : p.id ∉ ps.map fun p => p.id := (List.nodup_cons.mp (by simpa using hnd)).1
    by_cases hpid : p.id = pid
    · cases hld : last_date_on_record es p.id with
      | none =>
        have hno : ∀ e ∈ es, e.PATIENT ≠ p.id := last_date_on_record_eq_none_iff.mp hld
        have hne : ¬∃ e ∈ es, e.PATIENT = pid := by
          rintro ⟨e, he, hee⟩
          exact hno e he (hee.trans hpid.symm)
        rw [patients_and_dates_cons_none hld, ih hnd']
        simp [hne]
      | some ld =>
        have henc : ∃ e ∈ es, e.PATIENT = pid := by
          obtain ⟨e, he, hep, _⟩ := last_date_on_record_mem hld
          exact ⟨e, he, hep.trans hpid⟩
        have hmem : ∃ q ∈ p :: ps, q.id = pid := ⟨p, List.mem_cons_self p ps, hpid⟩
        have htail : ∀ q ∈ ps, q.id ≠ pid := by
          intro q hq hqe
          exact hnotin (List.mem_map.mpr ⟨q, hq, hqe.trans hpid.symm⟩)
        rw [patients_and_dates_cons_some hld, List.filter_cons]
        have htrue : ((padOf p ld).Id == pid) = true := by
          simp [padOf, hpid]
        rw [htrue, pad_filter_nil htail]
        simp [hmem, henc, hpid]
    · have hiff : ((∃ q ∈ ps, q.id = pid) ∧ (∃ e ∈ es, e.PATIENT = pid)) ↔
          ((∃ q ∈ p :: ps, q.id = pid) ∧ (∃ e ∈ es, e.PATIENT = pid)) := by
        constructor
        · rintro ⟨⟨q, hq, hqe⟩, he⟩
          exact ⟨⟨q, List.mem_cons_of_mem p hq, hqe⟩, he⟩
        · rintro ⟨⟨q, hq, hqe⟩, he⟩
          rcases List.mem_cons.mp hq with rfl | hq'
          · exact absurd hqe hpid
          · exact ⟨⟨q, hq', hqe⟩, he⟩
      cases hld : last_date_on_record es p.id with
      | none =>
        rw [patients_and_dates_cons_none hld, ih hnd']
        exact if_congr hiff rfl rfl
      | some ld =>
        rw [patients_and_dates_cons_some hld, List.filter_cons]
        have hfalse : ((padOf p ld).Id == pid) = false := by
          simp [padOf, hpid]
        rw [hfalse]
        have hred :
            (if (false = true) then padOf p ld ::
                ((patients_and_dates ps es).filter fun pad => pad.Id == pid)
              else (patients_and_dates ps es).filter fun pad => pad.Id == pid) =
              (patients_and_dates ps es).filter fun pad => pad.Id == pid := by
          simp
        rw [hred, ih hnd']
        exact if_congr hiff rfl rfl

lemma dataset_length_eq {ps : List PatientRecord} {es : List EncounterRecord}
    (hnd : (ps.map fun p => p.id).Nodup) :
    ∀ l : List CohortEntry,
      (l.flatMap (rowsForEntry ps es)).length =
        (l.filter fun lcc => (ps.any fun p => p.id == lcc.PATIENT) &&
          (es.any fun e => e.PATIENT == lcc.PATIENT)).length := by
  intro l
  induction l with
  | nil => rfl
  | cons lcc l ih =>
    rw [List.flatMap_cons, List.length_append, ih, List.filter_cons]
    have hhead : (rowsForEntry ps es lcc).length =
        if (∃ p ∈ ps, p.id = lcc.PATIENT) ∧ (∃ e ∈ es, e.PATIENT = lcc.PATIENT)
        then 1 else 0 := by
      rw [rowsForEntry, List.length_map]
      exact pad_filter_length hnd
    by_cases hcond : (∃ p ∈ ps, p.id = lcc.PATIENT) ∧ (∃ e ∈ es, e.PATIENT = lcc.PATIENT)
    · have hbool : ((ps.any fun p => p.id == lcc.PATIENT) &&
          (es.any fun e => e.PATIENT == lcc.PATIENT)) = true := by
        simp only [Bool.and_eq_true, List.any_eq_true, beq_iff_eq]
        exact hcond
      rw [hhead, if_pos hcond, hbool]
      simp
      omega
    · have hbool : ((ps.any fun p => p.id == lcc.PATIENT) &&
          (es.any fun e => e.PATIENT == lcc.PATIENT)) = false :=
        Bool.eq_false_iff.mpr
          (by simpa [List.any_eq_true, beq_iff_eq] using hcond)
      rw [hhead, if_neg hcond]
      simp [hbool]

/-- Claim C6: assuming patient ids are unique in the patients table, each
cohort entry whose patient has a patient record and at least one encounter
produces exactly one dataset row, entries whose patient lacks either
produce none, and the dataset is exactly as long as the list of cohort
entries whose patient has both — the inner join silently excludes exactly
the others. -/
theorem join_cardinality_rule :
    ∀ (ps : List PatientRecord) (cs : List ConditionRecord) (es : List EncounterRecord),
      (ps.map fun p => p.id).Nodup →
      (∀ lcc ∈ lung_cancer_cohort cs,
        (rowsForEntry ps es lcc).length =
          if (∃ p ∈ ps, p.id = lcc.PATIENT) ∧ (∃ e ∈ es, e.PATIENT = lcc.PATIENT)
          then 1 else 0) ∧
      (lung_cancer_patients_dataset ps cs es).length =
        ((lung_cancer_cohort cs).filter fun lcc =>
          (ps.any fun p => p.id == lcc.PATIENT) &&
          (es.any fun e => e.PATIENT == lcc.PATIENT)).length := by
  intro ps cs es hnd
  refine ⟨fun lcc _ => ?_, dataset_length_eq hnd _⟩
  rw [rowsForEntry, List.length_map]
  exact pad_filter_length hnd

/-- Witness for claim C6 at the concrete observed-death example tables. -/
theorem join_cardinality_rule_witness :
    (exPatientsObserved.map fun p => p.id).Nodup ∧
    (lung_cancer_patients_dataset exPatientsObserved exConditionsObserved
        exEncountersObserved).length =
      ((lung_cancer_cohort exConditionsObserved).filter fun lcc =>
        (exPatientsObserved.any fun p => p.id == lcc.PATIENT) &&
        (exEncountersObserved.any fun e => e.PATIENT == lcc.PATIENT)).length :=
  ⟨by decide, (join_cardinality_rule exPatientsObserved exConditionsObserved
    exEncountersObserved (by decide)).2⟩

/-- Witness for claim C10 at a concrete censored row of the censored
example tables. -/
theorem censored_time_from_encounter_witness :
    (∃ e ∈ exEncountersCensored, e.PATIENT = exRowCensored.PATIENT ∧
      e.STOP = exRowCensored.last_date_on_record) ∧
    (toSurvivalRecord exRowCensored).time =
      datediff exRowCensored.last_date_on_record exRowCensored.START_DATE :=
  ⟨(censored_time_from_encounter exPatientsCensored exConditionsCensored
      exEncountersCensored exRowCensored (by decide)).1,
   (censored_time_from_encounter exPatientsCensored exConditionsCensored
      exEncountersCensored exRowCensored (by decide)).2 (by decide)⟩

lemma deathCount_le_atRiskCount (data : List (ℚ × Bool)) (t : ℚ) :
    deathCount data t ≤ atRiskCount data t := by
  apply List.countP_mono_left
  intro x _ hx
  simp only [Bool.and_eq_true, decide_eq_true_eq] at hx ⊢
  exact le_of_eq hx.1.symm

lemma kmFactor_nonneg (data : List (ℚ × Bool)) (t : ℚ) : 0 ≤ kmFactor data t := by
  rw [kmFactor]
  have hle := deathCount_le_atRiskCount data t
  rcases Nat.eq_zero_or_pos (atRiskCount data t) with h0 | hpos
  · have hd : deathCount data t = 0 := by omega
    simp [h0, hd]
  · have hdiv : (deathCount data t : ℚ) / (atRiskCount data t : ℚ) ≤ 1 := by
      rw [div_le_one (by exact_mod_cast hpos)]
      exact_mod_cast hle
    linarith

lemma kmFactor_le_one (data : List (ℚ × Bool)) (t : ℚ) : kmFactor data t ≤ 1 := by
  rw [kmFactor]
  have hdiv : 0 ≤ (deathCount data t : ℚ) / (atRiskCount data t : ℚ) :=
    div_nonneg (by positivity) (by positivity)
  linarith

lemma survivalFunction_mono (data : List (ℚ × Bool)) {s t : ℚ} (hst : s ≤ t) :
    survivalFunction data t ≤ survivalFunction data s := by
  rw [survivalFunction, survivalFunction]
  have hsub : (eventTimes data).filter (fun u => u ≤ s) ⊆
      (eventTimes data).filter (fun u => u ≤ t) := by
    intro u hu
    rw [Finset.mem_filter] at hu ⊢
    exact ⟨hu.1, hu.2.trans hst⟩
  rw [← Finset.prod_sdiff hsub]
  have h1 : (∏ u ∈ (eventTimes data).filter (fun u => u ≤ t) \
      (eventTimes data).filter (fun u => u ≤ s), kmFactor data u) ≤ 1 :=
    Finset.prod_le_one (fun u _ => kmFactor_nonneg data u)
      (fun u _ => kmFactor_le_one data u)
  have h2 : 0 ≤ ∏ u ∈ (eventTimes data).filter (fun u => u ≤ s), kmFactor data u :=
    Finset.prod_nonneg fun u _ => kmFactor_nonneg data u
  exact mul_le_of_le_one_left h2 h1

lemma mem_eventTimes {data : List (ℚ × Bool)} {u : ℚ} :
    u ∈ eventTimes data ↔ ∃ x ∈ data, x.2 = true ∧ x.1 = u := by
  simp only [eventTimes, List.mem_toFinset, List.mem_map, List.mem_filter]
  constructor
  · rintro ⟨x, ⟨hx, hev⟩, hu⟩
    exact ⟨x, hx, hev, hu⟩
  · rintro ⟨x, hx, hev, hu⟩
    exact ⟨x, ⟨hx, hev⟩, hu⟩

lemma survivalFunction_eq_one (data : List (ℚ × Bool)) {t : ℚ}
    (h : ∀ u ∈ eventTimes data, t < u) : survivalFunction data t = 1 := by
  rw [survivalFunction]
  have hempty : (eventTimes data).filter (fun u => u ≤ t) = ∅ := by
    rw [Finset.filter_eq_empty_iff]
    intro u hu
    exact not_le.mpr (h u hu)
  rw [hempty, Finset.prod_empty]

lemma survivalFunction_step (data : List (ℚ × Bool)) {u : ℚ}
    (hu : u ∈ eventTimes data) :
    survivalFunction data u = survivalBefore data u * kmFactor data u := by
  rw [survivalFunction, survivalBefore]
  have hsplit : (eventTimes data).filter (fun v => v ≤ u) =
      insert u ((eventTimes data).filter (fun v => v < u)) := by
    ext v
    simp only [Finset.mem_filter, Finset.mem_insert]
    constructor
    · rintro ⟨hv, hle⟩
      rcases lt_or_eq_of_le hle with hlt | heq
      · exact Or.inr ⟨hv, hlt⟩
      · exact Or.inl heq
    · rintro (rfl | ⟨hv, hlt⟩)
      · exact ⟨hu, le_refl v⟩
      · exact ⟨hv, hlt.le⟩
  rw [hsplit, Finset.prod_insert (by simp)]
  ring

/-- Claim C8 (estimator modelled from the spec): for a non-empty input of
(duration, event) pairs, the Kaplan-Meier survival function is
non-increasing in t; it equals 1 at t = 0 whenever every observed event
time is positive (so 1 at and below the minimum observed time); and at
each distinct observed event time it is updated multiplicatively by
1 - d_i / n_i relative to its value just before that time. -/
theorem kaplan_meier_properties :
    ∀ data : List (ℚ × Bool), data ≠ [] →
      (∀ s t : ℚ, s ≤ t → survivalFunction data t ≤ survivalFunction data s) ∧
      ((∀ x ∈ data, x.2 = true → 0 < x.1) → survivalFunction data 0 = 1) ∧
      (∀ u ∈ eventTimes data,
        survivalFunction data u = survivalBefore data u *
          (1 - (deathCount data u : ℚ) / (atRiskCount data u : ℚ))) := by
  intro data _
  refine ⟨fun s t hst => survivalFunction_mono data hst, fun hpos => ?_,
    fun u hu => survivalFunction_step data hu⟩
  apply survivalFunction_eq_one
  intro u hu
  obtain ⟨x, hx, hev, rfl⟩ := mem_eventTimes.mp hu
  exact hpos x hx hev

/-- Witness for claim C8 at a concrete two-observation input. -/
theorem kaplan_meier_properties_witness :
    exKMData ≠ [] ∧ survivalFunction exKMData 3 ≤ survivalFunction exKMData 2 ∧
    survivalFunction exKMData 0 = 1 :=
  ⟨by decide,
   (kaplan_meier_properties exKMData (by decide)).1 2 3 (by decide),
   (kaplan_meier_properties exKMData (by decide)).2.1 (by decide)⟩

end LungCancer
